import Mathlib

/-!
Verification of the EchoSphere geospatial cache and time-series store.

The definitions below are a shallow embedding of the database layer:

* `NASADataCache` / `get_or_fetch_nasa_data` follow the function
  `get_or_fetch_nasa_data` and the `NASADataCache` model documented in
  `backend/DATABASE_SETUP.md` (cache check on `is_valid == True` and
  `expires_at > datetime.utcnow()`, write-back with
  `expires_at = datetime.utcnow() + timedelta(hours=24)`).
* `NasaCacheEntry` / `get_nasa_cache` / `save_nasa_cache` model the
  crud-level cache (`nasa_cache` table with `hit_count`); their
  implementations are not among the sources, so they are modelled from the
  specification as indicated on each definition.
* `MetricsTimeSeries` / `get_metric_trend` follow the function
  `get_metric_trend` in `backend/DATABASE_SETUP.md`.
* `find_areas_near_point` follows the spatial query of the same name,
  with the PostGIS geography distance abstracted as a parameter.

Timestamps are modelled as integers (seconds for the cache, days for the
date-granularity metric store); JSON payloads and request parameters are
opaque and modelled as natural numbers; geographic coordinates and
distances are modelled as integers (a fixed-point reading of the source
floats), keeping all arithmetic exact and computable.
-/

deriving instance DecidableEq for Except

/-- Cache row of the `nasa_data_cache` table (model `NASADataCache` in
`backend/DATABASE_SETUP.md`): api source, request parameters (the cache
key), cached response, fetch timestamp, expiration timestamp and the
validity flag.  The documented field list has no hit counter. -/
structure NASADataCache where
  api_source : String
  request_params : Nat
  response_data : Nat
  fetched_at : Int
  expires_at : Int
  is_valid : Bool
  deriving DecidableEq, Repr

/-- The cache-check predicate of `get_or_fetch_nasa_data`: the row matches
the api source and parameters, `is_valid == True`, and
`expires_at > datetime.utcnow()`. -/
def cacheHit (now : Int) (apiSource : String) (params : Nat)
    (c : NASADataCache) : Bool :=
  c.api_source == apiSource && c.request_params == params &&
    c.is_valid == true && decide (now < c.expires_at)

/-- The cache-check phase of `get_or_fetch_nasa_data`
(`session.execute(select(NASADataCache).where(...))` followed by
`scalar_one_or_none`): the first row satisfying `cacheHit`. -/
def cacheLookup (now : Int) (store : List NASADataCache)
    (apiSource : String) (params : Nat) : Option NASADataCache :=
  store.find? (cacheHit now apiSource params)

/-- `get_or_fetch_nasa_data` from `backend/DATABASE_SETUP.md`: check the
cache; on a hit return the cached `response_data` with the from-cache flag
and leave the session unchanged; on a miss run the fetch; a fetch failure
propagates (no row is added); a fetch success adds a row with
`expires_at = now + 24 hours` (86400 seconds) and returns the data with
the from-cache flag false.  The result pairs the outcome with the
resulting table state. -/
def get_or_fetch_nasa_data (now : Int) (store : List NASADataCache)
    (apiSource : String) (params : Nat) (fetch : Except String Nat) :
    Except String (Nat × Bool) × List NASADataCache :=
  match cacheLookup now store apiSource params with
  | some c => (Except.ok (c.response_data, true), store)
  | none =>
    match fetch with
    | Except.error e => (Except.error e, store)
    | Except.ok data =>
      (Except.ok (data, false),
        store ++ [{ api_source := apiSource, request_params := params,
                    response_data := data, fetched_at := now,
                    expires_at := now + 86400, is_valid := true }])

/-- Cache row of the crud-level `nasa_cache` table
(`backend/DATABASE_README.md`): endpoint, cache key, optional location,
cached response, creation and expiration timestamps, hit counter and the
validity flag. -/
structure NasaCacheEntry where
  api_endpoint : String
  cache_key : String
  latitude : Option Int
  longitude : Option Int
  response_data : Nat
  created_at : Int
  expires_at : Int
  hit_count : Nat
  valid : Bool
  deriving DecidableEq, Repr

/-- The read predicate of the crud-level cache: the row matches the key,
is not invalidated, and is not expired (`expires_at > now`). -/
def legacyHit (now : Int) (key : String) (c : NasaCacheEntry) : Bool :=
  c.cache_key == key && c.valid == true && decide (now < c.expires_at)

/-- First row of the crud-level cache satisfying `legacyHit`. -/
def legacyLookup (now : Int) (store : List NasaCacheEntry) (key : String) :
    Option NasaCacheEntry :=
  store.find? (legacyHit now key)

/-- Increment the hit counter of the first row satisfying `legacyHit`. -/
def bumpHit (now : Int) (key : String) :
    List NasaCacheEntry → List NasaCacheEntry
  | [] => []
  | c :: rest =>
    if legacyHit now key c then
      { c with hit_count := c.hit_count + 1 } :: rest
    else
      c :: bumpHit now key rest

/-- Modelled from the spec: the implementation of `crud.get_nasa_cache` is
not among the sources (only call sites are).  Per the specification, the
read returns a Miss when no entry exists for the key, or the entry is
expired, or the entry is invalidated; on a hit it returns the payload and
increments the hit counter as a side effect. -/
def get_nasa_cache (now : Int) (store : List NasaCacheEntry) (key : String) :
    Option (Nat × List NasaCacheEntry) :=
  match legacyLookup now store key with
  | none => none
  | some c => some (c.response_data, bumpHit now key store)

/-- Modelled from the spec: the implementation of `crud.save_nasa_cache`
is not among the sources (only call sites, which pass `ttl_seconds`).  Per
the specification, the write creates an entry with
`expires_at = now + ttl_seconds`, a fresh hit counter and the validity
flag set. -/
def save_nasa_cache (now : Int) (store : List NasaCacheEntry)
    (apiEndpoint key : String) (data : Nat) (ttlSeconds : Int)
    (lat lon : Option Int) : List NasaCacheEntry :=
  store ++ [{ api_endpoint := apiEndpoint, cache_key := key,
              latitude := lat, longitude := lon, response_data := data,
              created_at := now, expires_at := now + ttlSeconds,
              hit_count := 0, valid := true }]

/-- Total hit count recorded against a key, summed over the table. -/
def sumHits : List NasaCacheEntry → String → Nat
  | [], _ => 0
  | c :: rest, key =>
    (if c.cache_key == key then c.hit_count else 0) + sumHits rest key

/-- Row of the `metrics_timeseries` table (model `MetricsTimeSeries` in
`backend/DATABASE_SETUP.md`): owning area, metric type, value, unit,
recording date (date granularity, modelled in days) and data source. -/
structure MetricsTimeSeries where
  area_id : Nat
  metric_type : String
  metric_value : Int
  unit : String
  date_recorded : Int
  data_source : String
  deriving DecidableEq, Repr

/-- Ordering used by `order_by(MetricsTimeSeries.date_recorded)`. -/
def byDateRecorded (a b : MetricsTimeSeries) : Prop :=
  a.date_recorded ≤ b.date_recorded

instance : DecidableRel byDateRecorded :=
  fun a b => inferInstanceAs (Decidable (a.date_recorded ≤ b.date_recorded))

instance : IsTotal MetricsTimeSeries byDateRecorded :=
  ⟨fun a b => Int.le_total a.date_recorded b.date_recorded⟩

instance : IsTrans MetricsTimeSeries byDateRecorded :=
  ⟨fun _ _ _ h1 h2 => le_trans h1 h2⟩

/-- The row filter of `get_metric_trend`: the row belongs to the given
area, has the given metric type, and `date_recorded >= cutoff_date`. -/
def trendMatch (areaId : Nat) (metricType : String) (cutoff : Int)
    (m : MetricsTimeSeries) : Bool :=
  m.area_id == areaId && m.metric_type == metricType &&
    decide (cutoff ≤ m.date_recorded)

/-- The row set returned by the select inside `get_metric_trend`:
matching rows ordered by `date_recorded` ascending
(`cutoff_date = date.today() - timedelta(days=days)`). -/
def metricWindow (today : Int) (store : List MetricsTimeSeries)
    (areaId : Nat) (metricType : String) (days : Int) :
    List MetricsTimeSeries :=
  List.insertionSort byDateRecorded
    (store.filter (trendMatch areaId metricType (today - days)))

/-- Result dictionary of `get_metric_trend`: the `dates` list, the
`values` list, and `unit` taken from the first row when one exists. -/
structure TrendResult where
  dates : List Int
  values : List Int
  unit : Option String
  deriving DecidableEq, Repr

/-- `get_metric_trend` from `backend/DATABASE_SETUP.md`: select the rows
of the area and metric type recorded on or after
`date.today() - timedelta(days=days)`, ordered by `date_recorded`, and
return `{dates, values, unit}` where `unit` is
`metrics[0].unit if metrics else None`. -/
def get_metric_trend (today : Int) (store : List MetricsTimeSeries)
    (areaId : Nat) (metricType : String) (days : Int) : TrendResult :=
  let ms := metricWindow today store areaId metricType days
  { dates := ms.map (fun m => m.date_recorded),
    values := ms.map (fun m => m.metric_value),
    unit := ms.head?.map (fun m => m.unit) }

/-- Modelled from the spec: the implementation of the retention pruning
(`cleanup_old_data` / `pruneOlderThan`) is not among the sources (only
call sites are).  Per the specification, it deletes all samples with
`recorded_at < now - retentionDuration` across all areas and returns the
count of deleted samples. -/
def pruneOlderThan (now retention : Int) (store : List MetricsTimeSeries) :
    List MetricsTimeSeries × Nat :=
  let old := store.filter (fun m => decide (m.date_recorded < now - retention))
  let keep := store.filter (fun m => !decide (m.date_recorded < now - retention))
  (keep, old.length)

/-- Row of the `area_analyses` table, reduced to the ownership reference
relevant to cascade deletion. -/
structure AreaAnalysisRec where
  area_id : Nat
  analysis : Nat
  deriving DecidableEq, Repr

/-- Store state relevant to area deletion: the area ids, their metric
samples and their dependent analyses. -/
structure DBState where
  areas : List Nat
  samples : List MetricsTimeSeries
  analyses : List AreaAnalysisRec
  deriving DecidableEq, Repr

/-- Modelled from the spec: the implementation of `deleteArea` is not
among the sources (only the schema note that deletes cascade from areas
to their time-series rows and analyses).  Per the specification, deleting
an area removes the area together with all of its metric samples and
dependent analyses. -/
def deleteArea (st : DBState) (areaId : Nat) : DBState :=
  { areas := st.areas.filter (fun a => a ≠ areaId),
    samples := st.samples.filter (fun m => m.area_id ≠ areaId),
    analyses := st.analyses.filter (fun a => a.area_id ≠ areaId) }

/-- Row of the `areas` table as used by `find_areas_near_point`: an
identifier and the stored geography (`bbox_geometry`), kept abstract in
the type parameter since PostGIS geographies are opaque to this layer. -/
structure GeoArea (γ : Type) where
  id : Nat
  bbox_geometry : γ
  deriving DecidableEq, Repr

/-- `find_areas_near_point` from `backend/DATABASE_SETUP.md`: select the
areas satisfying
`ST_DWithin(geography(bbox_geometry), geography(point), radius_km * 1000)`.
The PostGIS geography distance (meters from the query point to the stored
geography) is the parameter `distMeters`; the select has no order-by
clause, so the rows come back in table (creation) order. -/
def find_areas_near_point (distMeters : Int × Int → γ → Int)
    (areas : List (GeoArea γ)) (lat lon radiusKm : Int) :
    List (GeoArea γ) :=
  areas.filter (fun a => distMeters (lat, lon) a.bbox_geometry ≤ radiusKm * 1000)

/-- Absolute value on the integers, written out so that it evaluates. -/
def intAbs (x : Int) : Int := if x < 0 then -x else x

/-- Great-circle distance in meters between two points lying on a common
meridian, for point geographies given as (latitude, longitude) pairs: on
a sphere of radius 6371 km one degree of latitude is 111.195 km, so the
distance is `|Δlat| * 111195`.  Used to instantiate the abstract PostGIS
distance of `find_areas_near_point` on concrete inputs. -/
def meridianDistMeters (p : Int × Int) (g : Int × Int) : Int :=
  intAbs (g.1 - p.1) * 111195

/-- Error kinds surfaced by area creation. -/
inductive GeomError where
  | invalidGeometry
  deriving DecidableEq, Repr

/-- Cross product of the vectors `o → a` and `o → b`; its sign gives the
orientation of the triple. -/
def cross (o a b : Int × Int) : Int :=
  (a.1 - o.1) * (b.2 - o.2) - (a.2 - o.2) * (b.1 - o.1)

/-- For `p` collinear with the segment `a b`: does `p` lie on the
segment (bounding-box test)? -/
def onSeg (a b p : Int × Int) : Bool :=
  decide (min a.1 b.1 ≤ p.1) && decide (p.1 ≤ max a.1 b.1) &&
    decide (min a.2 b.2 ≤ p.2) && decide (p.2 ≤ max a.2 b.2)

/-- Segment intersection test for `p1 p2` against `q1 q2` (orientation
test with collinear endpoint handling). -/
def segsIntersect (p1 p2 q1 q2 : Int × Int) : Bool :=
  let d1 := cross q1 q2 p1
  let d2 := cross q1 q2 p2
  let d3 := cross p1 p2 q1
  let d4 := cross p1 p2 q2
  (((decide (0 < d1) && decide (d2 < 0)) || (decide (d1 < 0) && decide (0 < d2))) &&
   ((decide (0 < d3) && decide (d4 < 0)) || (decide (d3 < 0) && decide (0 < d4)))) ||
  (decide (d1 = 0) && onSeg q1 q2 p1) ||
  (decide (d2 = 0) && onSeg q1 q2 p2) ||
  (decide (d3 = 0) && onSeg p1 p2 q1) ||
  (decide (d4 = 0) && onSeg p1 p2 q2)

/-- Cyclically adjacent edge indices among `n` edges. -/
def adjacentEdges (n i j : Nat) : Bool :=
  j == i + 1 || (i == 0 && j == n - 1)

/-- Simplicity of a closed ring: the cycle vertices are pairwise distinct
and no two non-adjacent edges of the cycle intersect. -/
def ringSimple (ring : List (Int × Int)) : Bool :=
  let vs := ring.dropLast
  let n := vs.length
  decide vs.Nodup &&
    (List.range n).all (fun i =>
      (List.range n).all (fun j =>
        decide (j ≤ i) || adjacentEdges n i j ||
          !(segsIntersect (vs.getD i (0, 0)) (vs.getD ((i + 1) % n) (0, 0))
              (vs.getD j (0, 0)) (vs.getD ((j + 1) % n) (0, 0)))))

/-- Validity of a submitted polygon ring per the specification: at least
4 listed vertices, closed (first equals last) and simple. -/
def validRing (ring : List (Int × Int)) : Bool :=
  decide (4 ≤ ring.length) && ring.head? == ring.getLast? && ringSimple ring

/-- Row of the `selected_areas` table, per the crud call sites: owner,
geometry ring (decoded from the WKT string), caller-supplied center
coordinates and area, and a name. -/
structure SelectedArea where
  id : Nat
  user_id : Nat
  geometry : List (Int × Int)
  center_lat : Int
  center_lng : Int
  area_km2 : Int
  name : String
  deriving DecidableEq, Repr

/-- Modelled from the spec: the implementation of
`crud.create_selected_area` is not among the sources (only call sites
are).  The signature follows the call sites, which pass `center_lat`,
`center_lng` and `area_km2` as arguments alongside the geometry; the
geometry validation (reject rings that are malformed per `validRing` with
`InvalidGeometry`, persisting nothing) follows the specification.  On
success the area is appended with the next id and all caller-supplied
fields stored as given. -/
def create_selected_area (st : List SelectedArea) (userId : Nat)
    (ring : List (Int × Int)) (centerLat centerLng areaKm2 : Int)
    (name : String) : Except GeomError (Nat × List SelectedArea) :=
  if validRing ring then
    Except.ok (st.length,
      st ++ [{ id := st.length, user_id := userId, geometry := ring,
               center_lat := centerLat, center_lng := centerLng,
               area_km2 := areaKm2, name := name }])
  else
    Except.error GeomError.invalidGeometry

/-! ## Helper lemmas -/

/-- A row that fails the cache-hit predicate now keeps failing it at any
later time: validity and key fields do not change with time, and an
expired row stays expired. -/
theorem cacheHit_mono {now nowL : Int} {apiSource : String} {params : Nat}
    {c : NASADataCache} (hle : now ≤ nowL)
    (h : cacheHit nowL apiSource params c = true) :
    cacheHit now apiSource params c = true := by
  simp only [cacheHit, Bool.and_eq_true, decide_eq_true_iff] at h ⊢
  exact ⟨h.1, lt_of_le_of_lt hle h.2⟩

/-- A cache miss persists on an unchanged table: if the lookup finds no
valid unexpired row now, it finds none at any later time either. -/
theorem cacheLookup_none_mono {now nowL : Int} {store : List NASADataCache}
    {apiSource : String} {params : Nat}
    (h : cacheLookup now store apiSource params = none) (hle : now ≤ nowL) :
    cacheLookup nowL store apiSource params = none := by
  rw [cacheLookup, List.find?_eq_none] at h ⊢
  intro x hx hcontra
  exact h x hx (cacheHit_mono hle hcontra)

/-- On a hit, `get_nasa_cache` bumps the hit counter of the row it found:
the total hit count recorded against the key grows by one. -/
theorem sumHits_bumpHit {now : Int} {key : String}
    {store : List NasaCacheEntry} {c : NasaCacheEntry}
    (h : legacyLookup now store key = some c) :
    sumHits (bumpHit now key store) key = sumHits store key + 1 := by
  induction store with
  | nil => simp [legacyLookup, List.find?] at h
  | cons d rest ih =>
    by_cases hd : legacyHit now key d = true
    · have hkey : (d.cache_key == key) = true := by
        simp only [legacyHit, Bool.and_eq_true] at hd
        exact hd.1.1
      simp [bumpHit, hd, sumHits, hkey]
      omega
    · rw [Bool.not_eq_true] at hd
      have hlook : legacyLookup now rest key = some c := by
        simp only [legacyLookup, List.find?_cons, hd] at h ⊢
        exact h
      cases hk : d.cache_key == key
      all_goals simp [bumpHit, hd, sumHits, hk, ih hlook]
      all_goals omega

/-! ## Claims -/

/-- C1: for every cache key, a read (`get_nasa_cache` or the cache-check
phase of `get_or_fetch_nasa_data`) never returns an entry whose validity
flag is false or whose `expires_at` is less than or equal to the current
time: such entries are reported as a miss even if not yet physically
deleted; in particular an entry written with a 1-second TTL is a miss
once more than 1 second has elapsed, before any cleanup sweep runs. -/
theorem cache_read_never_returns_invalid_or_expired :
    (∀ (now : Int) (store : List NASADataCache) (apiSource : String)
        (params : Nat) (c : NASADataCache),
      cacheLookup now store apiSource params = some c →
        c.is_valid = true ∧ now < c.expires_at) ∧
    (∀ (now : Int) (store : List NasaCacheEntry) (key : String)
        (c : NasaCacheEntry),
      legacyLookup now store key = some c →
        c.valid = true ∧ now < c.expires_at) ∧
    (∀ (t : Int) (ep key : String) (data : Nat),
      get_nasa_cache (t + 2) (save_nasa_cache t [] ep key data 1 none none)
        key = none) := by
  refine ⟨?_, ?_, ?_⟩
  · intro now store apiSource params c h
    have := List.find?_some h
    simp only [cacheHit, Bool.and_eq_true, beq_iff_eq, decide_eq_true_iff] at this
    exact ⟨this.1.2, this.2⟩
  · intro now store key c h
    have := List.find?_some h
    simp only [legacyHit, Bool.and_eq_true, beq_iff_eq, decide_eq_true_iff] at this
    exact ⟨this.1.2, this.2⟩
  · intro t ep key data
    have hexp : ¬(t + 2 < t + 1) := by omega
    simp [get_nasa_cache, legacyLookup, save_nasa_cache, List.find?,
      legacyHit, hexp]

/-- Witness for C1 at concrete inputs: a hit on a valid unexpired row in
each cache model. -/
theorem cache_read_never_returns_invalid_or_expired_witness :
    ((⟨"POWER", 7, 42, 0, 86400, true⟩ : NASADataCache).is_valid = true ∧
      (5 : Int) < (⟨"POWER", 7, 42, 0, 86400, true⟩ : NASADataCache).expires_at) ∧
    ((⟨"imagery", "k", none, none, 9, 0, 10, 1, true⟩ : NasaCacheEntry).valid = true ∧
      (3 : Int) < (⟨"imagery", "k", none, none, 9, 0, 10, 1, true⟩ : NasaCacheEntry).expires_at) :=
  ⟨cache_read_never_returns_invalid_or_expired.1 5
      [⟨"POWER", 7, 42, 0, 86400, true⟩] "POWER" 7
      ⟨"POWER", 7, 42, 0, 86400, true⟩ (by decide),
   cache_read_never_returns_invalid_or_expired.2.1 3
      [⟨"imagery", "k", none, none, 9, 0, 10, 1, true⟩] "k"
      ⟨"imagery", "k", none, none, 9, 0, 10, 1, true⟩ (by decide)⟩

/-- C3: if the fetch fails during `get_or_fetch_nasa_data` (the miss
path), the failure is propagated to the caller, no cache row is written
(the table is unchanged), and a subsequent read of the same key at any
later time is still a miss. -/
theorem fetch_failure_not_cached :
    ∀ (now nowL : Int) (store : List NASADataCache) (apiSource : String)
      (params : Nat) (e : String),
      cacheLookup now store apiSource params = none → now ≤ nowL →
        get_or_fetch_nasa_data now store apiSource params (Except.error e) =
          (Except.error e, store) ∧
        cacheLookup nowL store apiSource params = none := by
  intro now nowL store apiSource params e hmiss hle
  constructor
  · simp [get_or_fetch_nasa_data, hmiss]
  · exact cacheLookup_none_mono hmiss hle

/-- Witness for C3: a failed fetch against the empty cache propagates the
error, writes nothing, and the key misses again one second later. -/
theorem fetch_failure_not_cached_witness :
    get_or_fetch_nasa_data 0 [] "POWER" 7 (Except.error "timeout") =
      (Except.error "timeout", []) ∧
    cacheLookup 1 [] "POWER" 7 = none :=
  fetch_failure_not_cached 0 1 [] "POWER" 7 "timeout" (by decide) (by decide)

/-- C2 counterexample: a run of `get_or_fetch_nasa_data` at a concrete
input.  The first call misses and writes the row; the second immediate
call returns the cached payload with the from-cache flag but leaves the
table completely unchanged: no counter of any kind is incremented (the
`NASADataCache` model has no hit counter field at all). -/
theorem getOrFetch_hit_leaves_store_unchanged_counterexample :
    get_or_fetch_nasa_data 0 [] "POWER" 7 (Except.ok 42) =
      (Except.ok (42, false), [⟨"POWER", 7, 42, 0, 86400, true⟩]) ∧
    get_or_fetch_nasa_data 1 [⟨"POWER", 7, 42, 0, 86400, true⟩] "POWER" 7
        (Except.error "unused") =
      (Except.ok (42, true), [⟨"POWER", 7, 42, 0, 86400, true⟩]) := by decide

/-- C2 (amended): after `get_or_fetch_nasa_data` succeeds on a miss and
caches the result, a second call with the same key within the 24-hour
expiry does not invoke the fetch (the result is the same for every fetch
argument), returns the identical payload with the from-cache flag, and
leaves the table unchanged; the hit-count increment belongs to the
crud-level read `get_nasa_cache` (modelled from the spec), where every
successful read increments the hit count recorded against the key. -/
theorem getOrFetch_second_call_cached_and_read_increments_hits :
    (∀ (now nowL : Int) (store : List NASADataCache) (apiSource : String)
        (params d : Nat) (g : Except String Nat),
      cacheLookup now store apiSource params = none →
      now ≤ nowL → nowL < now + 86400 →
        get_or_fetch_nasa_data now store apiSource params (Except.ok d) =
          (Except.ok (d, false),
            store ++ [⟨apiSource, params, d, now, now + 86400, true⟩]) ∧
        get_or_fetch_nasa_data nowL
            (store ++ [⟨apiSource, params, d, now, now + 86400, true⟩])
            apiSource params g =
          (Except.ok (d, true),
            store ++ [⟨apiSource, params, d, now, now + 86400, true⟩])) ∧
    (∀ (now : Int) (store : List NasaCacheEntry) (key : String) (pl : Nat)
        (storeL : List NasaCacheEntry),
      get_nasa_cache now store key = some (pl, storeL) →
        sumHits storeL key = sumHits store key + 1) := by
  constructor
  · intro now nowL store apiSource params d g hmiss hle hlt
    constructor
    · simp [get_or_fetch_nasa_data, hmiss]
    · have hm2 : cacheLookup nowL store apiSource params = none :=
        cacheLookup_none_mono hmiss hle
      have hlook : cacheLookup nowL
          (store ++ [⟨apiSource, params, d, now, now + 86400, true⟩])
          apiSource params =
          some ⟨apiSource, params, d, now, now + 86400, true⟩ := by
        rw [cacheLookup, List.find?_append]
        rw [cacheLookup] at hm2
        rw [hm2]
        simp [List.find?, cacheHit, hlt]
      simp [get_or_fetch_nasa_data, hlook]
  · intro now store key pl storeL h
    rw [get_nasa_cache] at h
    cases hl : legacyLookup now store key with
    | none => rw [hl] at h; exact absurd h (by simp)
    | some c =>
      rw [hl] at h
      have h2 : (c.response_data, bumpHit now key store) = (pl, storeL) :=
        Option.some.inj h
      have hstore : storeL = bumpHit now key store := (Prod.ext_iff.mp h2).2.symm
      rw [hstore]
      exact sumHits_bumpHit hl

/-- Witness for C2 (amended) at concrete inputs: a write followed by a
cached second call, and a crud-level read that bumps the hit count from
3 to 4. -/
theorem getOrFetch_second_call_cached_witness :
    (get_or_fetch_nasa_data 0 [] "POWER" 7 (Except.ok 42) =
      (Except.ok (42, false), [⟨"POWER", 7, 42, 0, 86400, true⟩]) ∧
     get_or_fetch_nasa_data 1 [⟨"POWER", 7, 42, 0, 86400, true⟩] "POWER" 7
        (Except.error "unused") =
      (Except.ok (42, true), [⟨"POWER", 7, 42, 0, 86400, true⟩])) ∧
    sumHits [⟨"imagery", "k", none, none, 9, 0, 10, 4, true⟩] "k" =
      sumHits [⟨"imagery", "k", none, none, 9, 0, 10, 3, true⟩] "k" + 1 := by
  constructor
  · have h := getOrFetch_second_call_cached_and_read_increments_hits.1
      0 1 [] "POWER" 7 42 (Except.error "unused") (by decide) (by decide) (by decide)
    simpa using h
  · exact getOrFetch_second_call_cached_and_read_increments_hits.2
      0 [⟨"imagery", "k", none, none, 9, 0, 10, 3, true⟩] "k" 9
      [⟨"imagery", "k", none, none, 9, 0, 10, 4, true⟩] (by decide)

/-- C4 counterexample: on a miss with a successful fetch,
`get_or_fetch_nasa_data` writes the row with
`expires_at = now + 86400` (24 hours, fixed in the function, which takes
no TTL argument), so for a caller-supplied TTL such as 3600 seconds the
stored expiry is not `now + ttl`. -/
theorem getOrFetch_ttl_counterexample :
    (get_or_fetch_nasa_data 0 [] "POWER" 7 (Except.ok 42)).2 =
      [⟨"POWER", 7, 42, 0, 86400, true⟩] ∧
    (86400 : Int) ≠ 0 + 3600 := by decide

/-- C4 (amended): when `get_or_fetch_nasa_data` misses and the fetch
succeeds, the new row is written with `expires_at = now + 24 hours`
(the function takes no TTL argument) and the fetched payload is returned
to the caller; the crud-level writer `save_nasa_cache` (modelled from the
spec) is the operation honouring a caller-supplied TTL, writing
`expires_at = now + ttl_seconds`. -/
theorem getOrFetch_fixed_24h_expiry_and_save_ttl :
    (∀ (now : Int) (store : List NASADataCache) (apiSource : String)
        (params d : Nat),
      cacheLookup now store apiSource params = none →
        get_or_fetch_nasa_data now store apiSource params (Except.ok d) =
          (Except.ok (d, false),
            store ++ [⟨apiSource, params, d, now, now + 86400, true⟩])) ∧
    (∀ (now ttl : Int) (store : List NasaCacheEntry) (ep key : String)
        (data : Nat) (lat lon : Option Int),
      save_nasa_cache now store ep key data ttl lat lon =
        store ++ [⟨ep, key, lat, lon, data, now, now + ttl, 0, true⟩]) := by
  constructor
  · intro now store apiSource params d hmiss
    simp [get_or_fetch_nasa_data, hmiss]
  · intro now ttl store ep key data lat lon
    rfl

/-- Witness for C4 (amended): a miss on the empty table at time 0 writes
the row expiring at 86400, and a save with a 3600-second TTL at time 10
writes the row expiring at 3610. -/
theorem getOrFetch_fixed_24h_expiry_witness :
    get_or_fetch_nasa_data 0 [] "POWER" 7 (Except.ok 42) =
      (Except.ok (42, false), [⟨"POWER", 7, 42, 0, 86400, true⟩]) ∧
    save_nasa_cache 10 [] "imagery" "k" 9 3600 none none =
      [⟨"imagery", "k", none, none, 9, 10, 3610, 0, true⟩] := by
  constructor
  · have h := getOrFetch_fixed_24h_expiry_and_save_ttl.1 0 [] "POWER" 7 42
      (by decide)
    simpa using h
  · exact getOrFetch_fixed_24h_expiry_and_save_ttl.2 10 3600 [] "imagery" "k"
      9 none none

/-- C5 counterexample: a concrete run of `find_areas_near_point` with two
areas on the prime meridian, the point-geography distance instantiated
with the great-circle distance along a meridian.  The area created first
(111 km away) is returned before the later-created area at distance 0, so
the result is not ordered by distance ascending. -/
theorem nearby_areas_not_sorted_counterexample :
    find_areas_near_point meridianDistMeters
      [⟨1, (1, 0)⟩, ⟨2, (0, 0)⟩] 0 0 200 =
      [⟨1, (1, 0)⟩, ⟨2, (0, 0)⟩] ∧
    meridianDistMeters (0, 0) (0, 0) < meridianDistMeters (0, 0) (1, 0) := by
  decide

/-- C5 (amended): `find_areas_near_point` returns exactly the areas whose
stored geography lies within `radius_km * 1000` meters of the query point
(the `ST_DWithin` filter; for point geographies this is the centroid
great-circle distance), and it returns them in table (creation) order as
a sublist of the stored areas: the select has no order-by clause, so no
distance sort is applied.  On the concrete layout of the claim, the area
with centroid one degree of latitude away (about 111 km) is returned and
the one five degrees away (about 556 km) is excluded at a 200 km
radius. -/
theorem nearby_areas_within_radius_in_creation_order :
    ∀ (γ : Type) (dist : Int × Int → γ → Int) (areas : List (GeoArea γ))
      (lat lon radiusKm : Int),
      (∀ a, a ∈ find_areas_near_point dist areas lat lon radiusKm ↔
        a ∈ areas ∧ dist (lat, lon) a.bbox_geometry ≤ radiusKm * 1000) ∧
      (find_areas_near_point dist areas lat lon radiusKm).Sublist areas ∧
      find_areas_near_point meridianDistMeters
        [⟨1, (1, 0)⟩, ⟨2, (5, 0)⟩] 0 0 200 = [⟨1, (1, 0)⟩] := by
  intro γ dist areas lat lon radiusKm
  refine ⟨?_, ?_, by decide⟩
  · intro a
    rw [find_areas_near_point, List.mem_filter]
    simp
  · exact List.filter_sublist areas

/-- Witness for C5 (amended): membership at a concrete area and input. -/
theorem nearby_areas_within_radius_witness :
    (⟨1, (1, 0)⟩ : GeoArea (Int × Int)) ∈
      find_areas_near_point meridianDistMeters
        [⟨1, (1, 0)⟩, ⟨2, (5, 0)⟩] 0 0 200 ↔
    (⟨1, (1, 0)⟩ : GeoArea (Int × Int)) ∈
        [(⟨1, (1, 0)⟩ : GeoArea (Int × Int)), ⟨2, (5, 0)⟩] ∧
      meridianDistMeters (0, 0) (1, 0) ≤ 200 * 1000 :=
  (nearby_areas_within_radius_in_creation_order (Int × Int)
    meridianDistMeters [⟨1, (1, 0)⟩, ⟨2, (5, 0)⟩] 0 0 200).1 ⟨1, (1, 0)⟩

/-- C6: for every area id, metric type and window length, the
metric-trend query returns the rows of that area and type recorded
within the last `days` days (inclusive cutoff `today - days`), as a
finite snapshot of the store at call time, ordered by `date_recorded`
ascending; the result dictionary is built from that ordered row list. -/
theorem metric_trend_window_sorted_and_complete :
    ∀ (today : Int) (store : List MetricsTimeSeries) (areaId : Nat)
      (metricType : String) (days : Int),
      (metricWindow today store areaId metricType days).Perm
        (store.filter (trendMatch areaId metricType (today - days))) ∧
      (∀ m, m ∈ metricWindow today store areaId metricType days ↔
        m ∈ store ∧ m.area_id = areaId ∧ m.metric_type = metricType ∧
          today - days ≤ m.date_recorded) ∧
      List.Sorted byDateRecorded
        (metricWindow today store areaId metricType days) ∧
      get_metric_trend today store areaId metricType days =
        { dates := (metricWindow today store areaId metricType days).map
            (fun m => m.date_recorded),
          values := (metricWindow today store areaId metricType days).map
            (fun m => m.metric_value),
          unit := (metricWindow today store areaId metricType days).head?.map
            (fun m => m.unit) } := by
  intro today store areaId metricType days
  refine ⟨List.perm_insertionSort byDateRecorded _, ?_, ?_, rfl⟩
  · intro m
    rw [metricWindow,
      (List.perm_insertionSort byDateRecorded _).mem_iff, List.mem_filter]
    simp [trendMatch, and_assoc]
  · exact List.sorted_insertionSort byDateRecorded _

/-- Witness for C6: the characterization applied at a concrete store and
row. -/
theorem metric_trend_window_sorted_witness :
    (⟨1, "heat_stress", 33, "celsius", -1, "NASA_POWER"⟩ : MetricsTimeSeries) ∈
      metricWindow 0 [⟨1, "heat_stress", 33, "celsius", -1, "NASA_POWER"⟩]
        1 "heat_stress" 30 ↔
    (⟨1, "heat_stress", 33, "celsius", -1, "NASA_POWER"⟩ : MetricsTimeSeries) ∈
        [(⟨1, "heat_stress", 33, "celsius", -1, "NASA_POWER"⟩ : MetricsTimeSeries)] ∧
      (⟨1, "heat_stress", 33, "celsius", -1, "NASA_POWER"⟩ : MetricsTimeSeries).area_id = 1 ∧
      (⟨1, "heat_stress", 33, "celsius", -1, "NASA_POWER"⟩ : MetricsTimeSeries).metric_type = "heat_stress" ∧
      (0 : Int) - 30 ≤ (⟨1, "heat_stress", 33, "celsius", -1, "NASA_POWER"⟩ : MetricsTimeSeries).date_recorded :=
  (metric_trend_window_sorted_and_complete 0
    [⟨1, "heat_stress", 33, "celsius", -1, "NASA_POWER"⟩]
    1 "heat_stress" 30).2.1 ⟨1, "heat_stress", 33, "celsius", -1, "NASA_POWER"⟩

/-- C7: the retention pruning keeps exactly the samples recorded on or
after `now - retention`, across all areas, and returns the count of
deleted (strictly older) samples; on the concrete store of the claim,
with samples at now-100d and now-1d and a 90-day retention, exactly the
now-100d sample is removed and the count is 1. -/
theorem prune_older_than_correct :
    ∀ (now retention : Int) (store : List MetricsTimeSeries),
      (∀ m, m ∈ (pruneOlderThan now retention store).1 ↔
        m ∈ store ∧ ¬(m.date_recorded < now - retention)) ∧
      (pruneOlderThan now retention store).2 =
        (store.filter
          (fun m => decide (m.date_recorded < now - retention))).length ∧
      pruneOlderThan 0 90
        [⟨1, "heat_stress", 1, "c", -100, "s"⟩,
         ⟨1, "heat_stress", 2, "c", -1, "s"⟩] =
        ([⟨1, "heat_stress", 2, "c", -1, "s"⟩], 1) := by
  intro now retention store
  refine ⟨?_, rfl, by decide⟩
  intro m
  rw [pruneOlderThan, List.mem_filter]
  simp

/-- Witness for C7: the kept-sample characterization at a concrete
store and sample. -/
theorem prune_older_than_witness :
    (⟨1, "heat_stress", 2, "c", -1, "s"⟩ : MetricsTimeSeries) ∈
      (pruneOlderThan 0 90
        [⟨1, "heat_stress", 1, "c", -100, "s"⟩,
         ⟨1, "heat_stress", 2, "c", -1, "s"⟩]).1 ↔
    (⟨1, "heat_stress", 2, "c", -1, "s"⟩ : MetricsTimeSeries) ∈
        [(⟨1, "heat_stress", 1, "c", -100, "s"⟩ : MetricsTimeSeries),
         ⟨1, "heat_stress", 2, "c", -1, "s"⟩] ∧
      ¬((⟨1, "heat_stress", 2, "c", -1, "s"⟩ : MetricsTimeSeries).date_recorded <
        (0 : Int) - 90) :=
  (prune_older_than_correct 0 90
    [⟨1, "heat_stress", 1, "c", -100, "s"⟩,
     ⟨1, "heat_stress", 2, "c", -1, "s"⟩]).1
    ⟨1, "heat_stress", 2, "c", -1, "s"⟩

/-- C8 counterexample: a concrete state with one area owning one sample.
After `deleteArea`, the metric-trend query on the deleted area returns
the empty trend dictionary (empty dates and values, no unit) as a normal
result: `get_metric_trend` has no error outcome and never checks that
the area exists, so no AreaNotFound failure is produced. -/
theorem delete_area_trend_not_error_counterexample :
    get_metric_trend 0
      (deleteArea
        ⟨[1], [⟨1, "heat_stress", 33, "celsius", -1, "NASA_POWER"⟩], []⟩
        1).samples
      1 "heat_stress" 30 =
      { dates := [], values := [], unit := none } := by decide

/-- C8 (amended): deleting an area cascades to everything it owns: the
area id is gone, no metric sample of the area remains, no dependent
analysis remains, and for every metric type and window the subsequent
metric-trend query on the deleted area returns the empty trend
dictionary (rather than an AreaNotFound error, which `get_metric_trend`
cannot produce). -/
theorem delete_area_cascades :
    ∀ (st : DBState) (areaId : Nat) (today days : Int) (metricType : String),
      areaId ∉ (deleteArea st areaId).areas ∧
      (∀ m ∈ (deleteArea st areaId).samples, m.area_id ≠ areaId) ∧
      (∀ a ∈ (deleteArea st areaId).analyses, a.area_id ≠ areaId) ∧
      get_metric_trend today (deleteArea st areaId).samples areaId
          metricType days =
        { dates := [], values := [], unit := none } := by
  intro st areaId today days metricType
  refine ⟨?_, ?_, ?_, ?_⟩
  · intro hmem
    simp only [deleteArea, List.mem_filter, decide_eq_true_iff] at hmem
    exact hmem.2 rfl
  · intro m hm
    simp only [deleteArea, List.mem_filter, decide_eq_true_iff] at hm
    exact hm.2
  · intro a ha
    simp only [deleteArea, List.mem_filter, decide_eq_true_iff] at ha
    exact ha.2
  · have hfil : (deleteArea st areaId).samples.filter
        (trendMatch areaId metricType (today - days)) = [] := by
      rw [List.filter_eq_nil_iff]
      intro m hm
      have hne : m.area_id ≠ areaId := by
        simp only [deleteArea, List.mem_filter, decide_eq_true_iff] at hm
        exact hm.2
      simp [trendMatch, hne]
    simp [get_metric_trend, metricWindow, hfil, List.insertionSort]

/-- Witness for C8 (amended): deleting area 1 from a state that also
holds a sample of area 2 leaves that sample with an owner different from
the deleted id. -/
theorem delete_area_cascades_witness :
    (⟨2, "heat_stress", 20, "celsius", -1, "NASA_POWER"⟩ :
        MetricsTimeSeries).area_id ≠ 1 :=
  (delete_area_cascades
    ⟨[1, 2],
     [⟨1, "heat_stress", 33, "celsius", -1, "NASA_POWER"⟩,
      ⟨2, "heat_stress", 20, "celsius", -1, "NASA_POWER"⟩], []⟩
    1 0 30 "heat_stress").2.1
    ⟨2, "heat_stress", 20, "celsius", -1, "NASA_POWER"⟩ (by decide)

/-- C9 counterexample: two calls of `create_selected_area` with the same
valid square footprint but different caller-supplied centers persist
areas whose stored center is exactly the argument in each call: the
centroid (and likewise `area_km2`) is a caller-supplied parameter, not a
value computed from the footprint by `create_selected_area`. -/
theorem create_area_centroid_caller_supplied_counterexample :
    create_selected_area [] 1 [(0, 0), (2, 0), (2, 2), (0, 2), (0, 0)]
        99 99 5 "t" =
      Except.ok (0, [⟨0, 1, [(0, 0), (2, 0), (2, 2), (0, 2), (0, 0)],
        99, 99, 5, "t"⟩]) ∧
    create_selected_area [] 1 [(0, 0), (2, 0), (2, 2), (0, 2), (0, 0)]
        1 1 5 "t" =
      Except.ok (0, [⟨0, 1, [(0, 0), (2, 0), (2, 2), (0, 2), (0, 0)],
        1, 1, 5, "t"⟩]) := by decide

/-- C9 (amended): for every submitted ring with fewer than 4 listed
vertices, and more generally whenever the ring fails validation (open or
self-intersecting rings included), `create_selected_area` returns
InvalidGeometry and persists nothing; for every valid ring it persists
the area with the caller-supplied center and area fields stored as given
and returns the assigned id; a concrete self-intersecting bowtie is
rejected from any store state. -/
theorem create_area_validation :
    ∀ (st : List SelectedArea) (userId : Nat) (ring : List (Int × Int))
      (centerLat centerLng areaKm2 : Int) (nm : String),
      (ring.length < 4 →
        create_selected_area st userId ring centerLat centerLng areaKm2 nm =
          Except.error GeomError.invalidGeometry) ∧
      (validRing ring = false →
        create_selected_area st userId ring centerLat centerLng areaKm2 nm =
          Except.error GeomError.invalidGeometry) ∧
      (validRing ring = true →
        create_selected_area st userId ring centerLat centerLng areaKm2 nm =
          Except.ok (st.length,
            st ++ [⟨st.length, userId, ring, centerLat, centerLng,
              areaKm2, nm⟩])) ∧
      create_selected_area st userId [(0, 0), (2, 2), (2, 0), (0, 2), (0, 0)]
          centerLat centerLng areaKm2 nm =
        Except.error GeomError.invalidGeometry := by
  intro st userId ring centerLat centerLng areaKm2 nm
  have hbow : validRing [((0 : Int), (0 : Int)), (2, 2), (2, 0), (0, 2), (0, 0)] =
      false := by decide
  refine ⟨?_, ?_, ?_, ?_⟩
  · intro hlen
    have h4 : ¬(4 ≤ ring.length) := by omega
    have hv : validRing ring = false := by
      simp [validRing, h4]
    simp [create_selected_area, hv]
  · intro hv
    simp [create_selected_area, hv]
  · intro hv
    simp [create_selected_area, hv]
  · simp only [create_selected_area]
    rw [hbow]
    rfl

/-- Witness for C9 (amended): the validation applied to a 3-point open
ring (rejected) and to a valid closed square (persisted as given). -/
theorem create_area_validation_witness :
    create_selected_area [] 1 [(0, 0), (1, 0), (0, 0)] 0 0 1 "short" =
      Except.error GeomError.invalidGeometry ∧
    create_selected_area [] 1 [(0, 0), (2, 0), (2, 2), (0, 2), (0, 0)]
        1 1 5 "sq" =
      Except.ok (0, [⟨0, 1, [(0, 0), (2, 0), (2, 2), (0, 2), (0, 0)],
        1, 1, 5, "sq"⟩]) := by
  constructor
  · exact (create_area_validation [] 1 [(0, 0), (1, 0), (0, 0)]
      0 0 1 "short").1 (by decide)
  · have h := (create_area_validation [] 1
      [(0, 0), (2, 0), (2, 2), (0, 2), (0, 0)] 1 1 5 "sq").2.2.1 (by decide)
    simpa using h

/-- C10: when no sample of the requested area and metric type lies inside
the requested window, the metric-trend query does not fail: it returns
the empty trend dictionary, with empty dates and values lists and no
unit. -/
theorem metric_trend_empty_window :
    ∀ (today : Int) (store : List MetricsTimeSeries) (areaId : Nat)
      (metricType : String) (days : Int),
      (∀ m ∈ store, trendMatch areaId metricType (today - days) m = false) →
        get_metric_trend today store areaId metricType days =
          { dates := [], values := [], unit := none } := by
  intro today store areaId metricType days h
  have hfil : store.filter (trendMatch areaId metricType (today - days)) = [] := by
    rw [List.filter_eq_nil_iff]
    intro m hm
    simp [h m hm]
  simp [get_metric_trend, metricWindow, hfil, List.insertionSort]

/-- Witness for C10: a store holding only a sample of another area and an
out-of-window sample of the requested area yields the empty trend. -/
theorem metric_trend_empty_window_witness :
    get_metric_trend 0
      [⟨2, "heat_stress", 20, "celsius", -1, "NASA_POWER"⟩,
       ⟨1, "heat_stress", 33, "celsius", -100, "NASA_POWER"⟩]
      1 "heat_stress" 30 =
      { dates := [], values := [], unit := none } :=
  metric_trend_empty_window 0
    [⟨2, "heat_stress", 20, "celsius", -1, "NASA_POWER"⟩,
     ⟨1, "heat_stress", 33, "celsius", -100, "NASA_POWER"⟩]
    1 "heat_stress" 30 (by decide)
